import Mathlib

/-!
Verification development for the BMAuth credential ceremony engine.

Shallow embedding conventions:
- wall-clock time is a natural number of minutes (`datetime.utcnow()` becomes an
  explicit `now : Nat` argument); day-based comparisons divide by `minutesPerDay`;
- database rows are Lean structures; the SQLAlchemy session is an explicit `DB`
  state threaded through each operation;
- the external attestation verifier (the `webauthn` package,
  `verify_registration_response` / `verify_authentication_response`) is outside the
  repository and is passed in as an oracle: `Except String α`, where `Except.error m`
  models the exception with message `m` and `Except.ok` carries the verified data;
- base64 decoding of the client credential id is abstracted: the response record
  carries the decoded bytes, `none` modelling a decode failure;
- metadata columns never consulted by a modelled operation (aaguid,
  attestation_type, attestation_trust_path, device_type, backup_state, updated_at,
  email, display_name, backup codes, TOTP) are elided;
- SecurityLog rows are modelled only where a claim inspects them (login attempts):
  `record_login_attempt` returns the event type and risk level of the emitted log.
-/

namespace BMAuth

/-- One minute is the clock unit; Python timedelta days become 1440 minutes. -/
def minutesPerDay : Nat := 1440

/-- ASCII lowercasing, modelling Python `str.lower()` characterwise. -/
def strLower (s : String) : String :=
  ⟨s.data.map Char.toLower⟩

/-- Structural infix test on character lists. -/
def listHasInfix (pat : List Char) : List Char → Bool
  | [] => pat.isEmpty
  | c :: t => pat.isPrefixOf (c :: t) || listHasInfix pat t

/-- Row of the users table (src/models/user.py), auth-relevant columns. -/
structure User where
  id : String
  username : String
  is_active : Bool
  failed_login_attempts : Nat
  locked_until : Option Nat
  last_login_at : Option Nat
deriving Repr, DecidableEq

/-- User.is_locked: locked while `utcnow < locked_until` (src/models/user.py:140). -/
def User.is_locked (u : User) (now : Nat) : Bool :=
  match u.locked_until with
  | none => false
  | some t => decide (now < t)

/-- User.can_authenticate: active and not locked (src/models/user.py:146). -/
def User.can_authenticate (u : User) (now : Nat) : Bool :=
  u.is_active && !(u.is_locked now)

/-- Row of the webauthn_credentials table (src/models/webauthn_credential.py).
`transports` is stored as a comma-separated string in the source; the model keeps
the `transports_list` view directly. -/
structure WebAuthnCredential where
  id : String
  user_id : String
  credential_id : List Nat
  public_key : List Nat
  sign_count : Nat
  transports : List String
  name : Option String
  backup_eligible : Bool
  is_active : Bool
  last_used_at : Option Nat
  usage_count : Nat
  risk_score : Int
  created_at : Nat
deriving Repr, DecidableEq

/-- WebAuthnCredential.is_recent_registration: the registration age in whole days
is at most `days` (src/models/webauthn_credential.py:205). -/
def WebAuthnCredential.is_recent_registration
    (c : WebAuthnCredential) (days : Nat) (now : Nat) : Bool :=
  decide ((now - c.created_at) / minutesPerDay ≤ days)

/-- WebAuthnCredential.calculate_risk_score
(src/models/webauthn_credential.py:221): age, usage, transport and backup terms
accumulated then clamped to 0..100. -/
def WebAuthnCredential.calculate_risk_score
    (c : WebAuthnCredential) (now : Nat) : Int :=
  let score : Int := 0
  let score := if c.is_recent_registration 1 now then score + 20
    else if c.is_recent_registration 7 now then score + 10
    else score
  let score := if c.usage_count = 0 then score + 15
    else if c.usage_count < 5 then score + 5
    else score
  let score := if c.transports.contains "usb" then score - 5 else score
  let score := if c.transports.contains "nfc" then score + 5 else score
  let score := if !c.backup_eligible then score + 10 else score
  min (max score 0) 100

/-- Row of the webauthn_challenges table (src/models/webauthn_challenge.py). -/
structure WebAuthnChallenge where
  id : String
  challenge : String
  user_id : Option String
  username : String
  challenge_type : String
  expires_at : Nat
  created_at : Nat
deriving Repr, DecidableEq

/-- WebAuthnChallenge.is_expired: `utcnow > expires_at`
(src/models/webauthn_challenge.py:82). -/
def WebAuthnChallenge.is_expired (c : WebAuthnChallenge) (now : Nat) : Bool :=
  decide (c.expires_at < now)

/-- Security-log event types emitted by the modelled operations
(src/models/security_log.py). -/
inductive SecurityEventType
  | loginSuccess
  | loginFailed
  | accountLocked
  | accountUnlocked
  | multipleFailedAttempts
deriving Repr, DecidableEq

/-- The relational store: the three tables the ceremony engine touches. -/
structure DB where
  users : List User
  credentials : List WebAuthnCredential
  challenges : List WebAuthnChallenge
deriving Repr, DecidableEq

/-- WHERE clause of the challenge fetch in complete_registration /
complete_authentication (src/services/webauthn_service.py:157,342). -/
def challengeKey (username ctype : String) (c : WebAuthnChallenge) : Bool :=
  c.username == username && c.challenge_type == ctype

/-- Fold step selecting the row with the greatest created_at (ORDER BY
created_at DESC LIMIT 1). -/
def pickLater (acc : Option WebAuthnChallenge) (c : WebAuthnChallenge) :
    Option WebAuthnChallenge :=
  match acc with
  | none => some c
  | some b => if b.created_at < c.created_at then some c else some b

/-- Most recent stored challenge for (username, challenge_type). -/
def latestChallenge (db : DB) (username ctype : String) :
    Option WebAuthnChallenge :=
  (db.challenges.filter (challengeKey username ctype)).foldl pickLater none

/-- Deletion of a challenge row (`self.db.delete(challenge_data)`). -/
def deleteChallenge (db : DB) (chId : String) : DB :=
  { db with challenges := db.challenges.filter (fun c => c.id != chId) }

/-- Write-back of a mutated credential row (session commit of in-place updates). -/
def setCredential (db : DB) (c : WebAuthnCredential) : DB :=
  { db with credentials := db.credentials.map (fun x => if x.id == c.id then c else x) }

/-- Write-back of a mutated user row. -/
def setUser (db : DB) (u : User) : DB :=
  { db with users := db.users.map (fun x => if x.id == u.id then u else x) }

/-- WebAuthnService.get_user_by_username: lookup by lowercased username
(src/services/webauthn_service.py:464). -/
def getUserByUsername (db : DB) (username : String) : Option User :=
  db.users.find? (fun u => u.username == strLower username)

/-- UserService.get_user_by_id (src/services/user_service.py:69). -/
def getUserById (db : DB) (uid : String) : Option User :=
  db.users.find? (fun u => u.id == uid)

/-- WebAuthnService.get_credential_by_id: global lookup by raw credential id
(src/services/webauthn_service.py:445). -/
def getCredentialById (db : DB) (credId : List Nat) : Option WebAuthnCredential :=
  db.credentials.find? (fun c => c.credential_id == credId)

/-- WebAuthnService.get_user_credentials (src/services/webauthn_service.py:420). -/
def getUserCredentials (db : DB) (uid : String) (activeOnly : Bool) :
    List WebAuthnCredential :=
  db.credentials.filter (fun c => c.user_id == uid && (!activeOnly || c.is_active))

/-- Outcome of the external authentication verifier
(webauthn.verify_authentication_response): the verified new sign count, or the
exception message. The library is outside this repository, so it is an oracle. -/
abbrev AuthVerifier := Except String Nat

/-- Data returned by the external registration verifier
(webauthn.verify_registration_response), or the exception message. -/
structure RegVerification where
  credential_id : List Nat
  credential_public_key : List Nat
  sign_count : Nat
  credential_backed_up : Bool
deriving Repr, DecidableEq

abbrev RegVerifier := Except String RegVerification

/-- Client assertion response as complete_authentication consumes it: the value
of `credential_response["id"]` after base64 decoding, `none` when the lookup or
decode raises (src/services/webauthn_service.py:365). -/
structure AuthResponse where
  credentialIdBytes : Option (List Nat)
deriving Repr, DecidableEq

/-- AssertionResult schema fields used by the endpoint
(src/schemas/webauthn.py via src/services/webauthn_service.py:405). -/
structure AssertionResult where
  verified : Bool
  new_sign_count : Nat
  user_id : String
  credential_id : List Nat
deriving Repr, DecidableEq

/-- Result of complete_authentication: the AssertionResult, or the message of
the raised ValueError. -/
inductive AuthOutcome
  | ok (res : AssertionResult)
  | err (msg : String)
deriving Repr, DecidableEq

/-- WebAuthnService.complete_authentication
(src/services/webauthn_service.py:323). Steps in source order: fetch the most
recent authentication challenge (error when absent), delete-and-error when
expired, resolve the user (error when missing or cannot authenticate, challenge
kept), decode the credential id (error on decode failure, challenge kept),
resolve the credential (error when unknown, foreign or inactive, challenge
kept), then invoke the verifier: on exception delete the challenge and raise
the generic message; on success update usage, sign count and risk score,
commit, delete the challenge and return. -/
def complete_authentication (db : DB) (username : String) (resp : AuthResponse)
    (verifier : AuthVerifier) (now : Nat) : AuthOutcome × DB :=
  match latestChallenge db username "authentication" with
  | none => (.err "Invalid or expired challenge", db)
  | some ch =>
    if ch.is_expired now then
      (.err "Challenge expired", deleteChallenge db ch.id)
    else
      match getUserByUsername db username with
      | none => (.err "User not found or cannot authenticate", db)
      | some user =>
        if !(user.can_authenticate now) then
          (.err "User not found or cannot authenticate", db)
        else
          match resp.credentialIdBytes with
          | none => (.err "Invalid credential ID format", db)
          | some credId =>
            match getCredentialById db credId with
            | none => (.err "Invalid credential", db)
            | some cred =>
              if cred.user_id != user.id || !cred.is_active then
                (.err "Invalid credential", db)
              else
                match verifier with
                | .error m =>
                  (.err ("Authentication failed: " ++ m), deleteChallenge db ch.id)
                | .ok newCount =>
                  let cred' := { cred with
                    last_used_at := some now,
                    usage_count := cred.usage_count + 1,
                    sign_count := newCount }
                  let cred'' := { cred' with
                    risk_score := cred'.calculate_risk_score now }
                  (.ok ⟨true, newCount, user.id, credId⟩,
                   deleteChallenge (setCredential db cred'') ch.id)

/-- AttestationResult fields used by callers
(src/services/webauthn_service.py:234). -/
structure AttestationResult where
  verified : Bool
  credential_id : List Nat
  sign_count : Nat
deriving Repr, DecidableEq

/-- Result of complete_registration: the AttestationResult, or the message of
the raised ValueError. -/
inductive RegOutcome
  | ok (res : AttestationResult)
  | err (msg : String)
deriving Repr, DecidableEq

/-- WebAuthnService.complete_registration
(src/services/webauthn_service.py:136). Steps in source order: fetch the most
recent registration challenge (error when absent), delete-and-error when
expired, resolve the user (error when missing, challenge kept), then the try
block: verifier exception or a pre-existing credential with the same raw id
deletes the challenge and raises "Registration failed: ..."; otherwise the new
credential row is inserted and the challenge deleted. `freshId` is the
uuid4 primary key of the new row. -/
def complete_registration (db : DB) (username : String) (verifier : RegVerifier)
    (credential_name : Option String) (freshId : String) (now : Nat) :
    RegOutcome × DB :=
  match latestChallenge db username "registration" with
  | none => (.err "Invalid or expired challenge", db)
  | some ch =>
    if ch.is_expired now then
      (.err "Challenge expired", deleteChallenge db ch.id)
    else
      match getUserByUsername db username with
      | none => (.err "User not found", db)
      | some user =>
        match verifier with
        | .error m =>
          (.err ("Registration failed: " ++ m), deleteChallenge db ch.id)
        | .ok v =>
          match getCredentialById db v.credential_id with
          | some _ =>
            (.err "Registration failed: Credential already registered",
             deleteChallenge db ch.id)
          | none =>
            let cred : WebAuthnCredential := {
              id := freshId,
              user_id := user.id,
              credential_id := v.credential_id,
              public_key := v.credential_public_key,
              sign_count := v.sign_count,
              transports := ["internal"],
              name := credential_name,
              backup_eligible := v.credential_backed_up,
              is_active := true,
              last_used_at := none,
              usage_count := 0,
              risk_score := 0,
              created_at := now }
            (.ok ⟨true, v.credential_id, v.sign_count⟩,
             deleteChallenge
               { db with credentials := db.credentials ++ [cred] } ch.id)

/-- Options returned by start_authentication: the challenge and the raw ids of
the allowed credentials (src/services/webauthn_service.py:309). -/
structure AuthOptions where
  challenge : String
  allowCredentials : List (List Nat)
deriving Repr, DecidableEq

inductive StartAuthOutcome
  | ok (opts : AuthOptions)
  | err (msg : String)
deriving Repr, DecidableEq

/-- WebAuthnService.start_authentication
(src/services/webauthn_service.py:261): error when the user is missing or
cannot authenticate, error when no active credential exists, otherwise store a
fresh authentication challenge expiring in 5 minutes and return the options.
`challengeValue` models `secrets.token_bytes(32)` and `freshChId` the uuid4
primary key. -/
def start_authentication (db : DB) (username : String) (challengeValue : String)
    (freshChId : String) (now : Nat) : StartAuthOutcome × DB :=
  match getUserByUsername db username with
  | none => (.err "User not found or cannot authenticate", db)
  | some user =>
    if !(user.can_authenticate now) then
      (.err "User not found or cannot authenticate", db)
    else
      let creds := getUserCredentials db user.id true
      if creds.isEmpty then
        (.err "No active credentials found", db)
      else
        let ch : WebAuthnChallenge := {
          id := freshChId,
          challenge := challengeValue,
          user_id := some user.id,
          username := user.username,
          challenge_type := "authentication",
          expires_at := now + 5,
          created_at := now }
        (.ok ⟨challengeValue, creds.map (·.credential_id)⟩,
         { db with challenges := db.challenges ++ [ch] })

/-- Fixed lockout window: 30 minutes (src/services/user_service.py:232). -/
def lockoutMinutes : Nat := 30

/-- UserService.record_login_attempt (src/services/user_service.py:195).
Returns the mutated user together with the event type and risk level of the
security log it emits. Success resets the counters; failure increments the
counter, locks at 5 or more failures with a high-risk log, logs medium risk at
3 or more, low risk below. -/
def record_login_attempt (user : User) (success : Bool) (now : Nat) :
    User × SecurityEventType × String :=
  if success then
    ({ user with
        failed_login_attempts := 0,
        last_login_at := some now,
        locked_until := none },
     .loginSuccess, "low")
  else
    let user' := { user with
      failed_login_attempts := user.failed_login_attempts + 1 }
    if user'.failed_login_attempts ≥ 5 then
      ({ user' with locked_until := some (now + lockoutMinutes) },
       .accountLocked, "high")
    else if user'.failed_login_attempts ≥ 3 then
      (user', .multipleFailedAttempts, "medium")
    else
      (user', .loginFailed, "low")

/-- UserService.unlock_user (src/services/user_service.py:265): clear the lock
and the failure counter. -/
def unlock_user (user : User) : User :=
  { user with locked_until := none, failed_login_attempts := 0 }

/-- HTTP-level result of the authentication completion endpoint: success (token
issuance elided) or an HTTPException with status code and detail. -/
inductive EndpointResult
  | success (user_id : String)
  | httpError (status : Nat) (detail : String)
deriving Repr, DecidableEq

/-- Endpoint complete_webauthn_authentication
(src/api/v1/endpoints/webauthn.py:160): on service success, look the user up
and record a successful login; on a service ValueError, record a failed login
for the user when one exists and re-raise as HTTP 401 with the ValueError
message as detail. -/
def complete_webauthn_authentication (db : DB) (username : String)
    (resp : AuthResponse) (verifier : AuthVerifier) (now : Nat) :
    EndpointResult × DB :=
  match complete_authentication db username resp verifier now with
  | (.ok res, db1) =>
    match getUserById db1 res.user_id with
    | none => (.httpError 404 "User not found", db1)
    | some user =>
      let (user1, _, _) := record_login_attempt user true now
      (.success res.user_id, setUser db1 user1)
  | (.err msg, db1) =>
    let db2 :=
      match getUserByUsername db1 username with
      | some user =>
        let (user1, _, _) := record_login_attempt user false now
        setUser db1 user1
      | none => db1
    (.httpError 401 msg, db2)

/-! Simple in-memory variant (src/bmauth/auth.py): Python dicts become
association lists with last-write-wins update semantics. -/

/-- Dict read: `d[k]` as an option. -/
def dictGet {α : Type} (l : List (String × α)) (k : String) : Option α :=
  (l.find? (fun p => p.1 == k)).map (·.2)

/-- Dict membership: `k in d`. -/
def dictContains {α : Type} (l : List (String × α)) (k : String) : Bool :=
  l.any (fun p => p.1 == k)

/-- Dict write: `d[k] = v`, overwriting in place or appending. -/
def dictSet {α : Type} (l : List (String × α)) (k : String) (v : α) :
    List (String × α) :=
  if l.any (fun p => p.1 == k) then
    l.map (fun p => if p.1 == k then (k, v) else p)
  else
    l ++ [(k, v)]

/-- Dict deletion: `del d[k]`. -/
def dictErase {α : Type} (l : List (String × α)) (k : String) :
    List (String × α) :=
  l.filter (fun p => p.1 != k)

/-- Python substring membership `pat in s`. -/
def strContains (s pat : String) : Bool :=
  listHasInfix pat.data s.data

structure DeviceInfo where
  device_type : String
  device_name : String
  os : String
  browser : String
deriving Repr, DecidableEq

/-- detect_device_info (src/bmauth/auth.py:55): classify the user agent into
device type, browser and OS, and build the friendly device name. -/
def detect_device_info (user_agent : String) : DeviceInfo :=
  let ua := strLower user_agent
  let mobileMarks := ["mobile", "android", "iphone", "ipad", "ipod",
    "blackberry", "windows phone"]
  let isMobile := mobileMarks.any (fun m => strContains ua m)
  let device_type := if isMobile then "mobile" else "desktop"
  let browser :=
    if strContains ua "chrome" && !(strContains ua "edg") then "Chrome"
    else if strContains ua "safari" && !(strContains ua "chrome") then "Safari"
    else if strContains ua "firefox" then "Firefox"
    else if strContains ua "edg" then "Edge"
    else "Browser"
  let os_name :=
    if strContains ua "iphone" then "iPhone"
    else if strContains ua "ipad" then "iPad"
    else if strContains ua "android" then "Android"
    else if strContains ua "macintosh" || strContains ua "mac os x" then
      (if strContains ua "macbook" then "MacBook" else "Mac")
    else if strContains ua "windows" then "Windows PC"
    else if strContains ua "linux" then "Linux"
    else "Device"
  { device_type := device_type,
    device_name := browser ++ " on " ++ os_name,
    os := os_name,
    browser := browser }

/-- Device fingerprint `sha256(f"{email}:{user_agent}").hexdigest()`
(src/bmauth/auth.py:296): the hash is modelled by its preimage string, a
deterministic function of email and user agent. -/
def deviceFingerprint (email user_agent : String) : String :=
  email ++ ":" ++ user_agent

/-- One enrolled device in the simple variant's per-user record; the credential
fields come from `dict.get`, hence optional. -/
structure Device where
  credential_id : Option String
  public_key : Option String
  device_name : String
  device_type : String
  registered_at : Nat
  last_used : Nat
deriving Repr, DecidableEq

/-- Value of `users_db[email]` in the multi-device schema. -/
structure SimpleUser where
  email_verified : Bool
  devices : List (String × Device)
deriving Repr, DecidableEq

/-- Value of `add_device_sessions[session_id]`. -/
structure PairingSession where
  email : String
  expires_at : Nat
  status : String
  new_device_id : Option String
deriving Repr, DecidableEq

/-- The module-level in-memory stores of src/bmauth/auth.py (verification_pins
is elided: no claim inspects it). -/
structure SimpleState where
  users_db : List (String × SimpleUser)
  challenges_db : List (String × String)
  add_device_sessions : List (String × PairingSession)
deriving Repr, DecidableEq

/-- Outcome of a simple-variant endpoint: HTTP error status and message, or a
success carrying the payload relevant to the claims. -/
inductive SimpleOutcome
  | ok
  | okName (device_name : String)
  | okChallenge (challenge : String)
  | pending
  | completed (device_name : String)
  | err (status : Nat) (msg : String)
deriving Repr, DecidableEq

/-- Endpoint register_complete (src/bmauth/auth.py:282): reject when no
challenge is stored for the email, otherwise overwrite `users_db[email]` with a
fresh single-device record with email_verified false, delete the challenge and
succeed. PIN generation and the verification email are elided side channels. -/
def register_complete (st : SimpleState) (email : String)
    (credId pubKey : Option String) (user_agent : String) (now : Nat) :
    SimpleOutcome × SimpleState :=
  if !(dictContains st.challenges_db email) then
    (.err 400 "Invalid session", st)
  else
    let info := detect_device_info user_agent
    let device_id := deviceFingerprint email user_agent
    let newUser : SimpleUser := {
      email_verified := false,
      devices := [(device_id, {
        credential_id := credId,
        public_key := pubKey,
        device_name := info.device_name,
        device_type := info.device_type,
        registered_at := now,
        last_used := now })] }
    (.ok,
     { st with
        users_db := dictSet st.users_db email newUser,
        challenges_db := dictErase st.challenges_db email })

/-- Endpoint poll_device_status (src/bmauth/auth.py:550): unknown session is an
error; an expired session is deleted and reported as expired; a completed
session reports the new device's name (an uncaught KeyError on a dangling
reference surfaces as a 500); otherwise pending. -/
def poll_device_status (st : SimpleState) (session_id : String) (now : Nat) :
    SimpleOutcome × SimpleState :=
  match dictGet st.add_device_sessions session_id with
  | none => (.err 400 "Invalid session", st)
  | some s =>
    if now > s.expires_at then
      (.err 400 "Session expired",
       { st with add_device_sessions := dictErase st.add_device_sessions session_id })
    else if s.status == "completed" then
      match s.new_device_id with
      | none => (.err 500 "KeyError", st)
      | some did =>
        match dictGet st.users_db s.email with
        | none => (.err 500 "KeyError", st)
        | some u =>
          match dictGet u.devices did with
          | none => (.err 500 "KeyError", st)
          | some d => (.completed d.device_name, st)
    else
      (.pending, st)

/-- Endpoint join_device_begin (src/bmauth/auth.py:584): only checks that the
session id is stored; when it is, a fresh registration challenge is issued for
the session's email. There is no expiry check in the source. -/
def join_device_begin (st : SimpleState) (session_id : String)
    (challenge : String) (_now : Nat) : SimpleOutcome × SimpleState :=
  match dictGet st.add_device_sessions session_id with
  | none => (.err 400 "Invalid or expired session", st)
  | some s =>
    (.okChallenge challenge,
     { st with challenges_db := dictSet st.challenges_db s.email challenge })

/-- Endpoint join_device_complete (src/bmauth/auth.py:621): only checks that
the session id is stored; when it is, the new device is added to
`users_db[email]` (an uncaught KeyError when the user record is missing) and
the session transitions to completed. There is no expiry check in the source. -/
def join_device_complete (st : SimpleState) (session_id : String)
    (credId pubKey : Option String) (user_agent : String) (now : Nat) :
    SimpleOutcome × SimpleState :=
  match dictGet st.add_device_sessions session_id with
  | none => (.err 400 "Invalid session", st)
  | some s =>
    let email := s.email
    let info := detect_device_info user_agent
    let device_id := deviceFingerprint email user_agent
    match dictGet st.users_db email with
    | none => (.err 500 "KeyError", st)
    | some u =>
      let u' := { u with devices := dictSet u.devices device_id {
        credential_id := credId,
        public_key := pubKey,
        device_name := info.device_name,
        device_type := info.device_type,
        registered_at := now,
        last_used := now } }
      let s' := { s with status := "completed", new_device_id := some device_id }
      (.okName info.device_name,
       { st with
          users_db := dictSet st.users_db email u',
          add_device_sessions := dictSet st.add_device_sessions session_id s' })

/-! Concrete fixtures used to evaluate the operations at specific inputs. -/

/-- Active, unlocked user alice. -/
def alice : User :=
  { id := "u1", username := "alice", is_active := true,
    failed_login_attempts := 0, locked_until := none, last_login_at := none }

/-- Credential of alice with stored sign counter 5. -/
def c1 : WebAuthnCredential :=
  { id := "cr1", user_id := "u1", credential_id := [1, 2], public_key := [7],
    sign_count := 5, transports := ["internal"], name := none,
    backup_eligible := true, is_active := true, last_used_at := none,
    usage_count := 0, risk_score := 0, created_at := 0 }

/-- Live authentication challenge for alice (expires at minute 5). -/
def ch1 : WebAuthnChallenge :=
  { id := "ch1", challenge := "cv", user_id := some "u1", username := "alice",
    challenge_type := "authentication", expires_at := 5, created_at := 0 }

/-- Live registration challenge for alice. -/
def chR : WebAuthnChallenge :=
  { id := "chR", challenge := "cv2", user_id := some "u1", username := "alice",
    challenge_type := "registration", expires_at := 5, created_at := 0 }

/-- Store with alice, her credential, and a live authentication challenge. -/
def db1 : DB := { users := [alice], credentials := [c1], challenges := [ch1] }

/-- Store holding a live authentication challenge but no user row at all. -/
def db3 : DB := { users := [], credentials := [c1], challenges := [ch1] }

/-- Store with alice and her credential but no stored challenge. -/
def dbU : DB := { users := [alice], credentials := [c1], challenges := [] }

/-- Store with alice, her credential, and a live registration challenge. -/
def dbR : DB := { users := [alice], credentials := [c1], challenges := [chR] }

/-- Registration verifier outcome whose raw credential id collides with c1. -/
def vdup : RegVerification :=
  { credential_id := [1, 2], credential_public_key := [9], sign_count := 0,
    credential_backed_up := true }

/-- User with four prior failed attempts. -/
def uFour : User :=
  { id := "u4", username := "dave", is_active := true,
    failed_login_attempts := 4, locked_until := none, last_login_at := none }

/-- User with two prior failed attempts. -/
def uTwo : User :=
  { id := "u2", username := "erin", is_active := true,
    failed_login_attempts := 2, locked_until := none, last_login_at := none }

/-- Active user bob, locked until minute 50. -/
def uBob : User :=
  { id := "u5", username := "bob", is_active := true,
    failed_login_attempts := 5, locked_until := some 50, last_login_at := none }

/-- Store containing only the locked user bob. -/
def dbLockedFix : DB := { users := [uBob], credentials := [], challenges := [] }

/-- Store with alice but no credential rows at all. -/
def dbNoCred : DB := { users := [alice], credentials := [], challenges := [] }

/-- Client response carrying c1's raw credential id. -/
def respGood : AuthResponse := { credentialIdBytes := some [1, 2] }

/-- Client response carrying a raw credential id registered to nobody. -/
def respForeign : AuthResponse := { credentialIdBytes := some [9, 9] }

/-- Enrolled device of the simple-variant fixture. -/
def dev0 : Device :=
  { credential_id := some "c0", public_key := some "p0",
    device_name := "Chrome on Mac", device_type := "desktop",
    registered_at := 0, last_used := 0 }

/-- Simple-variant pairing session that expires at minute 10, still pending. -/
def sessExp : PairingSession :=
  { email := "a@x", expires_at := 10, status := "pending", new_device_id := none }

/-- Simple-variant state: one verified user with one device, no pending
challenge, one stored pairing session. -/
def stExp : SimpleState :=
  { users_db := [("a@x", { email_verified := true, devices := [("d0", dev0)] })],
    challenges_db := [],
    add_device_sessions := [("sess1", sessExp)] }

/-- Simple-variant state with a stored registration challenge for a@x. -/
def stReg : SimpleState :=
  { users_db := [("a@x", { email_verified := true, devices := [("d0", dev0)] })],
    challenges_db := [("a@x", "chv")],
    add_device_sessions := [] }

/-! Theorems -/

/-- Helper: find? over a map that replaced the matching entries. -/
lemma find_map_set {α : Type} (l : List (String × α)) (k : String) (v : α)
    (h : l.any (fun p => p.1 == k) = true) :
    (l.map (fun p => if p.1 == k then (k, v) else p)).find? (fun p => p.1 == k)
      = some (k, v) := by
  induction l with
  | nil => simp at h
  | cons p t ih =>
    by_cases hp : (p.1 == k) = true
    · rw [List.map_cons, if_pos hp, List.find?_cons_of_pos]
      simp
    · simp only [List.any_cons, hp, Bool.false_or] at h
      rw [List.map_cons, if_neg hp, List.find?_cons_of_neg, ih h]
      exact hp

/-- Helper: find? over an append when the left part has no match. -/
lemma find_append_single {α : Type} (l : List (String × α)) (k : String) (v : α)
    (h : l.any (fun p => p.1 == k) = false) :
    (l ++ [(k, v)]).find? (fun p => p.1 == k) = some (k, v) := by
  induction l with
  | nil =>
    rw [List.nil_append, List.find?_cons_of_pos]
    simp
  | cons p t ih =>
    simp only [List.any_cons, Bool.or_eq_false_iff] at h
    rw [List.cons_append, List.find?_cons_of_neg, ih h.2]
    simp [h.1]

/-- Helper: reading back the key just written into a dict. -/
lemma dictGet_set_self {α : Type} (l : List (String × α)) (k : String) (v : α) :
    dictGet (dictSet l k v) k = some v := by
  unfold dictGet dictSet
  by_cases h : l.any (fun p => p.1 == k) = true
  · rw [if_pos h, find_map_set l k v h]
    rfl
  · rw [if_neg h, find_append_single l k v (Bool.eq_false_iff.mpr h)]
    rfl

/-- C10: calculate_risk_score is a pure function of the credential's fields
(and the clock) that always returns a value in [0, 100]; it equals the clamp to
0..100 of the sum of the four described terms: +20 for registration within one
day, else +10 within seven days; +15 for zero usage, else +5 below five uses;
-5 for usb and +5 for nfc transports; +10 when not backup eligible. -/
theorem risk_score_bounds :
    ∀ (c : WebAuthnCredential) (now : Nat),
      0 ≤ c.calculate_risk_score now ∧
      c.calculate_risk_score now ≤ 100 ∧
      c.calculate_risk_score now =
        min (max ((if c.is_recent_registration 1 now then (20 : Int)
              else if c.is_recent_registration 7 now then 10 else 0)
            + (if c.usage_count = 0 then 15
              else if c.usage_count < 5 then 5 else 0)
            + (if c.transports.contains "usb" then -5 else 0)
            + (if c.transports.contains "nfc" then 5 else 0)
            + (if !c.backup_eligible then 10 else 0)) 0) 100 := by
  intro c now
  refine ⟨?_, ?_, ?_⟩
  · exact le_min (le_max_right _ _) (by norm_num)
  · exact min_le_right _ _
  · unfold WebAuthnCredential.calculate_risk_score
    split_ifs <;> norm_num

/-- C7 (failing input): a pairing session whose expiry has passed but that was
never polled is still accepted by the join endpoints. At minute 20 the session
sessExp (expired at minute 10) is reported expired by the poll endpoint, yet
join_device_begin still issues a challenge and join_device_complete still
enrolls the new device and marks the session completed. -/
theorem expired_session_join_accepted :
    (poll_device_status stExp "sess1" 20).1 = .err 400 "Session expired"
    ∧ (join_device_begin stExp "sess1" "newch" 20).1 = .okChallenge "newch"
    ∧ (join_device_begin stExp "sess1" "newch" 20).2.challenges_db
        = [("a@x", "newch")]
    ∧ (join_device_complete stExp "sess1" (some "c9") (some "p9") "iPhone Safari" 20).1
        = .okName "Safari on iPhone"
    ∧ ((dictGet (join_device_complete stExp "sess1" (some "c9") (some "p9")
          "iPhone Safari" 20).2.add_device_sessions "sess1").map
            (fun s => s.status)) = some "completed"
    ∧ 10 < 20 := by
  decide

/-- C9: in the simple in-memory variant, for every email that already has a
user record (with any enrolled devices) and a pending registration challenge,
register_complete succeeds and overwrites the whole record with a fresh one
holding only the newly registered device and email_verified set to false: the
prior devices and verification status are discarded. -/
theorem register_complete_replaces_user :
    ∀ (st : SimpleState) (email : String) (prior : SimpleUser)
      (credId pubKey : Option String) (ua : String) (now : Nat),
      dictGet st.users_db email = some prior →
      prior.devices ≠ [] →
      dictContains st.challenges_db email = true →
      (register_complete st email credId pubKey ua now).1 = .ok ∧
      dictGet (register_complete st email credId pubKey ua now).2.users_db email
        = some { email_verified := false,
                 devices := [(deviceFingerprint email ua,
                   { credential_id := credId, public_key := pubKey,
                     device_name := (detect_device_info ua).device_name,
                     device_type := (detect_device_info ua).device_type,
                     registered_at := now, last_used := now })] } := by
  intro st email prior credId pubKey ua now hprior hdev hch
  unfold register_complete
  rw [if_neg (by simp [hch])]
  exact ⟨rfl, dictGet_set_self _ _ _⟩

/-- Witness for C9 at a concrete state: a@x is verified and owns one device,
and after register_complete the record is fresh, unverified, single-device. -/
theorem register_complete_replaces_user_witness :
    (register_complete stReg "a@x" (some "c1") (some "p1") "Windows Chrome" 3).1
      = .ok ∧
    dictGet (register_complete stReg "a@x" (some "c1") (some "p1")
        "Windows Chrome" 3).2.users_db "a@x"
      = some { email_verified := false,
               devices := [(deviceFingerprint "a@x" "Windows Chrome",
                 { credential_id := some "c1", public_key := some "p1",
                   device_name := (detect_device_info "Windows Chrome").device_name,
                   device_type := (detect_device_info "Windows Chrome").device_type,
                   registered_at := 3, last_used := 3 })] } :=
  register_complete_replaces_user stReg "a@x"
    { email_verified := true, devices := [("d0", dev0)] }
    (some "c1") (some "p1") "Windows Chrome" 3 rfl (by decide) rfl

/-- C4: lockout policy of UserService. Each failed attempt increments
failed_login_attempts by exactly one; when the new count reaches 5 or more the
account is locked for the fixed 30-minute window and a high-risk log is
emitted; between 3 and 4 a medium-risk log is emitted and no lock is set; a
successful attempt unconditionally resets the counter and the lock; manual
unlock clears both; while locked_until is in the future start_authentication
refuses the identity, and once it has passed an active user can authenticate
again. -/
theorem lockout_policy :
    (∀ (u : User) (now : Nat),
       (record_login_attempt u false now).1.failed_login_attempts
         = u.failed_login_attempts + 1)
    ∧ (∀ (u : User) (now : Nat), 5 ≤ u.failed_login_attempts + 1 →
       (record_login_attempt u false now).1.locked_until
           = some (now + lockoutMinutes)
         ∧ (record_login_attempt u false now).2
           = (SecurityEventType.accountLocked, "high"))
    ∧ (∀ (u : User) (now : Nat), 3 ≤ u.failed_login_attempts + 1 →
       u.failed_login_attempts + 1 < 5 →
       (record_login_attempt u false now).1.locked_until = u.locked_until
         ∧ (record_login_attempt u false now).2
           = (SecurityEventType.multipleFailedAttempts, "medium"))
    ∧ (∀ (u : User) (now : Nat),
       (record_login_attempt u true now).1.failed_login_attempts = 0
         ∧ (record_login_attempt u true now).1.locked_until = none)
    ∧ (∀ u : User,
       (unlock_user u).failed_login_attempts = 0
         ∧ (unlock_user u).locked_until = none)
    ∧ (∀ (db : DB) (username cv cid : String) (u : User) (t now : Nat),
       getUserByUsername db username = some u →
       u.locked_until = some t → now < t →
       (start_authentication db username cv cid now).1
         = .err "User not found or cannot authenticate")
    ∧ (∀ (u : User) (t now : Nat), u.is_active = true →
       u.locked_until = some t → t ≤ now →
       u.can_authenticate now = true) := by
  refine ⟨?_, ?_, ?_, ?_, ?_, ?_, ?_⟩
  · intro u now
    simp only [record_login_attempt]
    split_ifs <;> first | rfl | simp_all
  · intro u now h
    simp only [record_login_attempt]
    split_ifs <;> first
      | exact ⟨rfl, rfl⟩ | exact absurd h (by omega) | simp_all
  · intro u now h3cl h5cl
    simp only [record_login_attempt]
    split_ifs <;> first
      | exact ⟨rfl, rfl⟩ | exact absurd h3cl (by omega) | simp_all
  · intro u now
    simp only [record_login_attempt]
    split_ifs <;> exact ⟨rfl, rfl⟩
  · intro u
    exact ⟨rfl, rfl⟩
  · intro db username cv cid u t now hu hlock hnow
    have hcan : u.can_authenticate now = false := by
      unfold User.can_authenticate User.is_locked
      rw [hlock]
      simp [hnow]
    unfold start_authentication
    rw [hu]
    simp [hcan]
  · intro u t now ha hl ht
    unfold User.can_authenticate User.is_locked
    rw [hl, ha]
    simp
    omega

/-- Witness for C4: the fifth failure at minute 100 locks dave until minute
130 with a high-risk log; the third failure for erin logs medium risk; and
start_authentication refuses the locked user bob at minute 5. -/
theorem lockout_policy_witness :
    (record_login_attempt uFour false 100).1.locked_until = some 130
    ∧ (record_login_attempt uTwo false 7).2
        = (SecurityEventType.multipleFailedAttempts, "medium")
    ∧ (start_authentication dbLockedFix "bob" "cv" "chx" 5).1
        = .err "User not found or cannot authenticate" :=
  ⟨(lockout_policy.2.1 uFour 100 (by decide)).1,
   (lockout_policy.2.2.1 uTwo 7 (by decide) (by decide)).2,
   lockout_policy.2.2.2.2.2.1 dbLockedFix "bob" "cv" "chx" uBob 50 5 rfl rfl
     (by decide)⟩

/-- C8: start_authentication fails with the account-unavailable error when the
identity is inactive or still locked, fails with the no-credentials error when
an active unlocked identity has no active credential, and otherwise stores a
fresh authentication-scoped challenge and returns it with the raw ids of the
identity's active credentials. -/
theorem start_authentication_spec :
    (∀ (db : DB) (username cv cid : String) (now : Nat) (u : User),
       getUserByUsername db username = some u →
       (u.is_active = false ∨ u.is_locked now = true) →
       start_authentication db username cv cid now
         = (.err "User not found or cannot authenticate", db))
    ∧ (∀ (db : DB) (username cv cid : String) (now : Nat) (u : User),
       getUserByUsername db username = some u →
       u.is_active = true → u.is_locked now = false →
       getUserCredentials db u.id true = [] →
       start_authentication db username cv cid now
         = (.err "No active credentials found", db))
    ∧ (∀ (db : DB) (username cv cid : String) (now : Nat) (u : User)
         (creds : List WebAuthnCredential),
       getUserByUsername db username = some u →
       u.is_active = true → u.is_locked now = false →
       getUserCredentials db u.id true = creds → creds ≠ [] →
       start_authentication db username cv cid now
         = (.ok ⟨cv, creds.map (fun c => c.credential_id)⟩,
            { db with challenges := db.challenges ++ [{
                id := cid, challenge := cv, user_id := some u.id,
                username := u.username, challenge_type := "authentication",
                expires_at := now + 5, created_at := now }] })) := by
  refine ⟨?_, ?_, ?_⟩
  · intro db username cv cid now u hu hbad
    have hcan : u.can_authenticate now = false := by
      unfold User.can_authenticate
      rcases hbad with h | h <;> simp [h]
    unfold start_authentication
    rw [hu]
    simp [hcan]
  · intro db username cv cid now u hu ha hl hcreds
    have hcan : u.can_authenticate now = true := by
      unfold User.can_authenticate
      simp [ha, hl]
    unfold start_authentication
    rw [hu]
    simp [hcan, hcreds]
  · intro db username cv cid now u creds hu ha hl hcreds hne
    have hcan : u.can_authenticate now = true := by
      unfold User.can_authenticate
      simp [ha, hl]
    have hempty : creds.isEmpty = false := by
      cases creds with
      | nil => exact absurd rfl hne
      | cons a t => rfl
    unfold start_authentication
    rw [hu]
    simp [hcan, hcreds, hempty]

/-- Witness for C8: the locked user bob is refused; alice with no stored
credential rows gets the no-credentials error; alice with credential c1 gets
the options listing c1's raw id and a stored authentication challenge. -/
theorem start_authentication_spec_witness :
    start_authentication dbLockedFix "bob" "cv" "chx" 5
      = (.err "User not found or cannot authenticate", dbLockedFix)
    ∧ start_authentication dbNoCred "alice" "cv" "chx" 0
      = (.err "No active credentials found", dbNoCred)
    ∧ start_authentication dbU "alice" "cv3" "chy" 0
      = (.ok ⟨"cv3", [[1, 2]]⟩,
         { dbU with challenges := [{
             id := "chy", challenge := "cv3", user_id := some "u1",
             username := "alice", challenge_type := "authentication",
             expires_at := 5, created_at := 0 }] }) :=
  ⟨start_authentication_spec.1 dbLockedFix "bob" "cv" "chx" 5 uBob rfl
     (Or.inr (by decide)),
   start_authentication_spec.2.1 dbNoCred "alice" "cv" "chx" 0 alice rfl rfl
     rfl rfl,
   start_authentication_spec.2.2 dbU "alice" "cv3" "chy" 0 alice [c1] rfl rfl
     rfl rfl (by decide)⟩

/-- Helper: a single-row filter result determines the most recent challenge. -/
lemma latest_of_single (db : DB) (u t : String) (ch : WebAuthnChallenge)
    (h : db.challenges.filter (challengeKey u t) = [ch]) :
    latestChallenge db u t = some ch := by
  unfold latestChallenge
  rw [h]
  rfl

/-- Helper: after deleting the only key-matching challenge, the key has no
matching challenge left. -/
lemma filter_key_delete (l : List WebAuthnChallenge) (ch : WebAuthnChallenge)
    (u t : String) (h : l.filter (challengeKey u t) = [ch]) :
    (l.filter (fun c => c.id != ch.id)).filter (challengeKey u t) = [] := by
  have h1 : (l.filter (fun c => c.id != ch.id)).filter (challengeKey u t)
      = (l.filter (challengeKey u t)).filter (fun c => c.id != ch.id) := by
    rw [List.filter_filter, List.filter_filter]
    congr 1
    funext c
    rw [Bool.and_comm]
  rw [h1, h]
  simp

/-- Helper: a successful complete_authentication removed the consumed
challenge row from the store. -/
lemma completeAuth_ok_challenges (db : DB) (username : String)
    (resp : AuthResponse) (verifier : AuthVerifier) (now : Nat)
    (ch : WebAuthnChallenge) (res : AssertionResult) (db' : DB)
    (hch : latestChallenge db username "authentication" = some ch)
    (hok : complete_authentication db username resp verifier now
      = (.ok res, db')) :
    db'.challenges = db.challenges.filter (fun c => c.id != ch.id) := by
  unfold complete_authentication at hok
  rw [hch] at hok
  repeat' split at hok
  all_goals simp_all [deleteChallenge, setCredential]
  all_goals obtain ⟨-, h2⟩ := hok
  all_goals subst h2
  all_goals rfl

/-- Helper: a successful complete_registration removed the consumed challenge
row from the store. -/
lemma completeReg_ok_challenges (db : DB) (username : String)
    (verifier : RegVerifier) (cname : Option String) (fid : String) (now : Nat)
    (ch : WebAuthnChallenge) (res : AttestationResult) (db' : DB)
    (hch : latestChallenge db username "registration" = some ch)
    (hok : complete_registration db username verifier cname fid now
      = (.ok res, db')) :
    db'.challenges = db.challenges.filter (fun c => c.id != ch.id) := by
  unfold complete_registration at hok
  rw [hch] at hok
  repeat' split at hok
  all_goals simp_all [deleteChallenge, setCredential]
  all_goals obtain ⟨-, h2⟩ := hok
  all_goals subst h2
  all_goals rfl

/-- C2: a challenge is consumed at most once in sequential execution. When a
complete_authentication (respectively complete_registration) call succeeds
having consumed the only stored challenge for its (username, purpose) key, a
second call for the same key finds no stored challenge and fails with the
invalid-or-expired-challenge error. -/
theorem challenge_single_use :
    (∀ (db : DB) (username : String) (resp resp₂ : AuthResponse)
       (verifier verifier₂ : AuthVerifier) (now now₂ : Nat)
       (ch : WebAuthnChallenge) (res : AssertionResult) (db' : DB),
       db.challenges.filter (challengeKey username "authentication") = [ch] →
       complete_authentication db username resp verifier now = (.ok res, db') →
       (complete_authentication db' username resp₂ verifier₂ now₂).1
         = .err "Invalid or expired challenge")
    ∧ (∀ (db : DB) (username : String) (verifier verifier₂ : RegVerifier)
       (cname cname₂ : Option String) (fid fid₂ : String) (now now₂ : Nat)
       (ch : WebAuthnChallenge) (res : AttestationResult) (db' : DB),
       db.challenges.filter (challengeKey username "registration") = [ch] →
       complete_registration db username verifier cname fid now
         = (.ok res, db') →
       (complete_registration db' username verifier₂ cname₂ fid₂ now₂).1
         = .err "Invalid or expired challenge") := by
  constructor
  · intro db username resp resp₂ verifier verifier₂ now now₂ ch res db' hf hok
    have hlatest := latest_of_single db username "authentication" ch hf
    have hchs := completeAuth_ok_challenges db username resp verifier now ch
      res db' hlatest hok
    have hnone : latestChallenge db' username "authentication" = none := by
      unfold latestChallenge
      rw [hchs, filter_key_delete db.challenges ch username "authentication" hf]
      rfl
    unfold complete_authentication
    rw [hnone]
  · intro db username verifier verifier₂ cname cname₂ fid fid₂ now now₂ ch res
      db' hf hok
    have hlatest := latest_of_single db username "registration" ch hf
    have hchs := completeReg_ok_challenges db username verifier cname fid now
      ch res db' hlatest hok
    have hnone : latestChallenge db' username "registration" = none := by
      unfold latestChallenge
      rw [hchs, filter_key_delete db.challenges ch username "registration" hf]
      rfl
    unfold complete_registration
    rw [hnone]

/-- Witness for C2: alice's successful authentication against db1 consumes the
only stored authentication challenge, and the immediate replay of the very
same response fails with the invalid-or-expired-challenge error. -/
theorem challenge_single_use_witness :
    (complete_authentication
      (complete_authentication db1 "alice" respGood (Except.ok 6) 0).2
      "alice" respGood (Except.ok 6) 0).1
    = .err "Invalid or expired challenge" :=
  challenge_single_use.1 db1 "alice" respGood respGood (Except.ok 6)
    (Except.ok 6) 0 0 ch1 ⟨true, 6, "u1", [1, 2]⟩
    (complete_authentication db1 "alice" respGood (Except.ok 6) 0).2
    rfl rfl

/-- C1 (counterexample): the store accepts a counter update that is LOWER than
the stored sign_count. Credential c1 stores sign_count 5; when the verifier
reports new counter 3, complete_authentication succeeds and the stored row now
carries sign_count 3 — no rejection and no cloning event, refuting the claimed
store-side strictly-greater check. -/
theorem counter_decrease_accepted_cex :
    (complete_authentication db1 "alice" respGood (Except.ok 3) 0).1
      = .ok ⟨true, 3, "u1", [1, 2]⟩
    ∧ ((complete_authentication db1 "alice" respGood (Except.ok 3) 0).2.credentials.map
        (fun c => c.sign_count)) = [3]
    ∧ c1.sign_count = 5
    ∧ (3 : Nat) < 5 := by
  refine ⟨rfl, rfl, rfl, by decide⟩

/-- C1 (amended): complete_authentication performs no counter comparison of
its own. Whenever the ceremony reaches the verifier, the store records
whatever new counter the external verifier reports — for every value n, even
one not greater than the stored sign_count, the call succeeds and the
credential row now carries sign_count n — and when the verifier rejects, the
caller receives only the generic "Authentication failed: ..." error (counter
monotonicity and cloning detection are delegated entirely to the external
verifier; no PossibleCloning event exists in the code). -/
theorem store_accepts_verifier_counter :
    ∀ (db : DB) (username : String) (resp : AuthResponse) (now : Nat)
      (ch : WebAuthnChallenge) (user : User) (cid : List Nat)
      (cred : WebAuthnCredential),
      latestChallenge db username "authentication" = some ch →
      ch.is_expired now = false →
      getUserByUsername db username = some user →
      user.can_authenticate now = true →
      resp.credentialIdBytes = some cid →
      getCredentialById db cid = some cred →
      cred.user_id = user.id →
      cred.is_active = true →
      (∀ n : Nat,
        (complete_authentication db username resp (Except.ok n) now).1
          = .ok ⟨true, n, user.id, cid⟩
        ∧ ∃ c', c' ∈ (complete_authentication db username resp
              (Except.ok n) now).2.credentials
            ∧ c'.id = cred.id ∧ c'.sign_count = n)
      ∧ (∀ m : String,
        (complete_authentication db username resp (Except.error m) now).1
          = .err ("Authentication failed: " ++ m)) := by
  intro db username resp now ch user cid cred hch hexp huser hcan hresp hcred
    hown hact
  have hguard : (cred.user_id != user.id || !cred.is_active) = false := by
    simp [hown, hact]
  constructor
  · intro n
    constructor
    · simp [complete_authentication, hch, hexp, huser, hcan, hresp, hcred,
        hguard]
    · have hmem : cred ∈ db.credentials := List.mem_of_find?_eq_some hcred
      simp only [complete_authentication, hch, hexp, huser, hcan, hresp,
        hcred, hguard]
      simp only [Bool.false_eq_true, if_false, deleteChallenge, setCredential]
      refine ⟨_, List.mem_map_of_mem _ hmem, ?_, ?_⟩
      · simp
      · simp
  · intro m
    simp [complete_authentication, hch, hexp, huser, hcan, hresp, hcred,
      hguard]

/-- Witness for C1's amended statement: against db1 the error path yields the
generic failure message, and the success path with reported counter 4 stores
counter 4 on alice's credential row. -/
theorem store_accepts_verifier_counter_witness :
    (complete_authentication db1 "alice" respGood (Except.error "sig") 0).1
      = .err "Authentication failed: sig"
    ∧ (complete_authentication db1 "alice" respGood (Except.ok 4) 0).1
      = .ok ⟨true, 4, "u1", [1, 2]⟩ :=
  ⟨(store_accepts_verifier_counter db1 "alice" respGood 0 ch1 alice [1, 2] c1
      rfl rfl rfl rfl rfl rfl rfl rfl).2 "sig",
   ((store_accepts_verifier_counter db1 "alice" respGood 0 ch1 alice [1, 2] c1
      rfl rfl rfl rfl rfl rfl rfl rfl).1 4).1⟩

/-- C3 (counterexample): a live challenge survives a failed consumption. In
db3 a live authentication challenge is stored but no user row exists; the
complete_authentication call fetches the live challenge, fails with the
user-not-found error, and returns the store UNCHANGED — the challenge row is
still present and reusable, refuting deletion on every post-fetch failure. -/
theorem challenge_retained_on_user_missing_cex :
    complete_authentication db3 "alice" respGood (Except.ok 1) 0
      = (.err "User not found or cannot authenticate", db3)
    ∧ db3.challenges = [ch1]
    ∧ ch1.is_expired 0 = false :=
  ⟨rfl, rfl, rfl⟩

/-- C3 (amended): the consumed challenge is deleted on success and on
verifier-stage failures (verifier rejection in both ceremonies, and the
duplicate-credential rejection during registration), but the failures between
the challenge fetch and the verifier call — user missing or unable to
authenticate, malformed credential id, unknown or foreign or inactive
credential, and registration's user-not-found — leave the store, and hence the
challenge row, unchanged. -/
theorem challenge_deletion_characterization :
    (∀ (db : DB) (username : String) (resp : AuthResponse)
       (verifier : AuthVerifier) (now : Nat) (ch : WebAuthnChallenge),
       latestChallenge db username "authentication" = some ch →
       ch.is_expired now = false →
       getUserByUsername db username = none →
       complete_authentication db username resp verifier now
         = (.err "User not found or cannot authenticate", db))
    ∧ (∀ (db : DB) (username : String) (resp : AuthResponse)
       (verifier : AuthVerifier) (now : Nat) (ch : WebAuthnChallenge)
       (user : User),
       latestChallenge db username "authentication" = some ch →
       ch.is_expired now = false →
       getUserByUsername db username = some user →
       user.can_authenticate now = false →
       complete_authentication db username resp verifier now
         = (.err "User not found or cannot authenticate", db))
    ∧ (∀ (db : DB) (username : String) (resp : AuthResponse)
       (verifier : AuthVerifier) (now : Nat) (ch : WebAuthnChallenge)
       (user : User),
       latestChallenge db username "authentication" = some ch →
       ch.is_expired now = false →
       getUserByUsername db username = some user →
       user.can_authenticate now = true →
       resp.credentialIdBytes = none →
       complete_authentication db username resp verifier now
         = (.err "Invalid credential ID format", db))
    ∧ (∀ (db : DB) (username : String) (resp : AuthResponse)
       (verifier : AuthVerifier) (now : Nat) (ch : WebAuthnChallenge)
       (user : User) (cid : List Nat),
       latestChallenge db username "authentication" = some ch →
       ch.is_expired now = false →
       getUserByUsername db username = some user →
       user.can_authenticate now = true →
       resp.credentialIdBytes = some cid →
       getCredentialById db cid = none →
       complete_authentication db username resp verifier now
         = (.err "Invalid credential", db))
    ∧ (∀ (db : DB) (username : String) (resp : AuthResponse)
       (verifier : AuthVerifier) (now : Nat) (ch : WebAuthnChallenge)
       (user : User) (cid : List Nat) (cred : WebAuthnCredential),
       latestChallenge db username "authentication" = some ch →
       ch.is_expired now = false →
       getUserByUsername db username = some user →
       user.can_authenticate now = true →
       resp.credentialIdBytes = some cid →
       getCredentialById db cid = some cred →
       (cred.user_id != user.id || !cred.is_active) = true →
       complete_authentication db username resp verifier now
         = (.err "Invalid credential", db))
    ∧ (∀ (db : DB) (username : String) (resp : AuthResponse) (m : String)
       (now : Nat) (ch : WebAuthnChallenge) (user : User) (cid : List Nat)
       (cred : WebAuthnCredential),
       latestChallenge db username "authentication" = some ch →
       ch.is_expired now = false →
       getUserByUsername db username = some user →
       user.can_authenticate now = true →
       resp.credentialIdBytes = some cid →
       getCredentialById db cid = some cred →
       (cred.user_id != user.id || !cred.is_active) = false →
       (complete_authentication db username resp (Except.error m) now).2
         = deleteChallenge db ch.id)
    ∧ (∀ (db : DB) (username : String) (resp : AuthResponse) (n : Nat)
       (now : Nat) (ch : WebAuthnChallenge) (user : User) (cid : List Nat)
       (cred : WebAuthnCredential),
       latestChallenge db username "authentication" = some ch →
       ch.is_expired now = false →
       getUserByUsername db username = some user →
       user.can_authenticate now = true →
       resp.credentialIdBytes = some cid →
       getCredentialById db cid = some cred →
       (cred.user_id != user.id || !cred.is_active) = false →
       (complete_authentication db username resp (Except.ok n) now).2.challenges
         = db.challenges.filter (fun c => c.id != ch.id))
    ∧ (∀ (db : DB) (username : String) (verifier : RegVerifier)
       (cname : Option String) (fid : String) (now : Nat)
       (ch : WebAuthnChallenge),
       latestChallenge db username "registration" = some ch →
       ch.is_expired now = false →
       getUserByUsername db username = none →
       complete_registration db username verifier cname fid now
         = (.err "User not found", db))
    ∧ (∀ (db : DB) (username : String) (m : String) (cname : Option String)
       (fid : String) (now : Nat) (ch : WebAuthnChallenge) (user : User),
       latestChallenge db username "registration" = some ch →
       ch.is_expired now = false →
       getUserByUsername db username = some user →
       complete_registration db username (Except.error m) cname fid now
         = (.err ("Registration failed: " ++ m), deleteChallenge db ch.id))
    ∧ (∀ (db : DB) (username : String) (v : RegVerification)
       (cname : Option String) (fid : String) (now : Nat)
       (ch : WebAuthnChallenge) (user : User) (c0 : WebAuthnCredential),
       latestChallenge db username "registration" = some ch →
       ch.is_expired now = false →
       getUserByUsername db username = some user →
       getCredentialById db v.credential_id = some c0 →
       complete_registration db username (Except.ok v) cname fid now
         = (.err "Registration failed: Credential already registered",
            deleteChallenge db ch.id)) := by
  refine ⟨?_, ?_, ?_, ?_, ?_, ?_, ?_, ?_, ?_, ?_⟩
  · intro db username resp verifier now ch hch hexp huser
    simp [complete_authentication, hch, hexp, huser]
  · intro db username resp verifier now ch user hch hexp huser hcan
    simp [complete_authentication, hch, hexp, huser, hcan]
  · intro db username resp verifier now ch user hch hexp huser hcan hresp
    simp [complete_authentication, hch, hexp, huser, hcan, hresp]
  · intro db username resp verifier now ch user cid hch hexp huser hcan hresp
      hcred
    simp [complete_authentication, hch, hexp, huser, hcan, hresp, hcred]
  · intro db username resp verifier now ch user cid cred hch hexp huser hcan
      hresp hcred hguard
    simp [complete_authentication, hch, hexp, huser, hcan, hresp, hcred,
      hguard]
  · intro db username resp m now ch user cid cred hch hexp huser hcan hresp
      hcred hguard
    simp [complete_authentication, hch, hexp, huser, hcan, hresp, hcred,
      hguard]
  · intro db username resp n now ch user cid cred hch hexp huser hcan hresp
      hcred hguard
    simp [complete_authentication, hch, hexp, huser, hcan, hresp, hcred,
      hguard, deleteChallenge, setCredential]
  · intro db username verifier cname fid now ch hch hexp huser
    simp [complete_registration, hch, hexp, huser]
  · intro db username m cname fid now ch user hch hexp huser
    simp [complete_registration, hch, hexp, huser]
  · intro db username v cname fid now ch user c0 hch hexp huser hdup
    simp [complete_registration, hch, hexp, huser, hdup]

/-- Witness for C3's amended statement: the post-fetch user-not-found failure
against db3 returns the store unchanged, while the verifier rejection against
db1 returns the store with the challenge deleted. -/
theorem challenge_deletion_characterization_witness :
    complete_authentication db3 "alice" respForeign (Except.ok 1) 0
      = (.err "User not found or cannot authenticate", db3)
    ∧ (complete_authentication db1 "alice" respGood (Except.error "bad") 0).2
      = deleteChallenge db1 "ch1" :=
  ⟨challenge_deletion_characterization.1 db3 "alice" respForeign (Except.ok 1)
     0 ch1 rfl rfl rfl,
   challenge_deletion_characterization.2.2.2.2.2.1 db1 "alice" respGood "bad"
     0 ch1 alice [1, 2] c1 rfl rfl rfl rfl rfl rfl rfl⟩

/-- Helper: complete_registration either leaves the credentials table
unchanged or appends exactly one row whose raw id was absent beforehand. -/
lemma completeReg_creds_cases (db : DB) (username : String)
    (verifier : RegVerifier) (cname : Option String) (fid : String)
    (now : Nat) :
    (complete_registration db username verifier cname fid now).2.credentials
      = db.credentials
    ∨ ∃ c : WebAuthnCredential,
        getCredentialById db c.credential_id = none
        ∧ (complete_registration db username verifier cname fid
            now).2.credentials = db.credentials ++ [c] := by
  unfold complete_registration
  repeat' split
  all_goals try exact Or.inl rfl
  refine Or.inr ⟨_, ?_, rfl⟩
  assumption

/-- C6: a registration completion whose verified raw credential id already
exists anywhere in the store fails with the duplicate-credential error and
creates no credential row; moreover complete_registration preserves the
invariant that raw credential ids are pairwise distinct, so at most one
credential row exists per raw id system-wide. -/
theorem duplicate_credential_rejected :
    (∀ (db : DB) (username : String) (v : RegVerification)
       (cname : Option String) (fid : String) (now : Nat)
       (ch : WebAuthnChallenge) (user : User) (c0 : WebAuthnCredential),
       latestChallenge db username "registration" = some ch →
       ch.is_expired now = false →
       getUserByUsername db username = some user →
       getCredentialById db v.credential_id = some c0 →
       (complete_registration db username (Except.ok v) cname fid now).1
         = .err "Registration failed: Credential already registered"
       ∧ (complete_registration db username (Except.ok v) cname fid
           now).2.credentials = db.credentials)
    ∧ (∀ (db : DB) (username : String) (verifier : RegVerifier)
       (cname : Option String) (fid : String) (now : Nat),
       db.credentials.Pairwise
         (fun a b => a.credential_id ≠ b.credential_id) →
       (complete_registration db username verifier cname fid
           now).2.credentials.Pairwise
         (fun a b => a.credential_id ≠ b.credential_id)) := by
  constructor
  · intro db username v cname fid now ch user c0 hch hexp huser hdup
    constructor
    · simp [complete_registration, hch, hexp, huser, hdup]
    · simp [complete_registration, hch, hexp, huser, hdup, deleteChallenge]
  · intro db username verifier cname fid now hpw
    rcases completeReg_creds_cases db username verifier cname fid now with
      h | ⟨c, hnone, h⟩
    · rw [h]
      exact hpw
    · rw [h, List.pairwise_append]
      refine ⟨hpw, by simp, ?_⟩
      intro a ha b hb
      simp only [List.mem_singleton] at hb
      subst hb
      intro hEq
      unfold getCredentialById at hnone
      exact (List.find?_eq_none.mp hnone a ha) (by simp [hEq])

/-- Witness for C6: against dbR (alice owns c1 with raw id [1,2] and a live
registration challenge is stored) a verifier result reporting the same raw id
is rejected as already registered and the credentials table is unchanged; the
uniqueness invariant of dbR is preserved. -/
theorem duplicate_credential_rejected_witness :
    (complete_registration dbR "alice" (Except.ok vdup) none "cr2" 0).1
      = .err "Registration failed: Credential already registered"
    ∧ (complete_registration dbR "alice" (Except.ok vdup) none "cr2"
        0).2.credentials = dbR.credentials
    ∧ (complete_registration dbR "alice" (Except.ok vdup) none "cr2"
        0).2.credentials.Pairwise
        (fun a b => a.credential_id ≠ b.credential_id) :=
  ⟨(duplicate_credential_rejected.1 dbR "alice" vdup none "cr2" 0 chR alice c1
      rfl rfl rfl rfl).1,
   (duplicate_credential_rejected.1 dbR "alice" vdup none "cr2" 0 chR alice c1
      rfl rfl rfl rfl).2,
   duplicate_credential_rejected.2 dbR "alice" (Except.ok vdup) none "cr2" 0
     (by simp [dbR])⟩

/-- C5 (counterexample): the three failure causes do NOT present identically.
At the full-variant endpoint an unknown identity yields 401 with detail
"Invalid or expired challenge", a wrong credential yields 401 with detail
"Invalid credential", and a verifier (signature) rejection yields 401 with
detail "Authentication failed: ...": the details are pairwise distinct, so a
caller can tell the causes apart. In the simple variant even the status
differs: unknown identity gives 404 "User not found". -/
theorem auth_failure_messages_differ_cex :
    (complete_webauthn_authentication dbU "mallory" respGood (Except.ok 1) 0).1
      = .httpError 401 "Invalid or expired challenge"
    ∧ (complete_webauthn_authentication db1 "alice" respForeign (Except.ok 1)
        0).1 = .httpError 401 "Invalid credential"
    ∧ (complete_webauthn_authentication db1 "alice" respGood
        (Except.error "Could not verify authentication signature") 0).1
      = .httpError 401
          "Authentication failed: Could not verify authentication signature"
    ∧ ("Invalid or expired challenge" ≠ "Invalid credential"
       ∧ "Invalid credential"
         ≠ "Authentication failed: Could not verify authentication signature"
       ∧ "Invalid or expired challenge"
         ≠ "Authentication failed: Could not verify authentication signature") := by
  exact ⟨rfl, rfl, rfl, by decide, by decide, by decide⟩

/-- C5 (amended): every service-level authentication failure is presented by
the endpoint with the same HTTP status 401, but the detail string is the
service's cause-specific message verbatim, so the three causes (unknown
identity, wrong credential, bad signature) remain distinguishable by their
distinct details. -/
theorem auth_failures_present_as_401 :
    ∀ (db : DB) (username : String) (resp : AuthResponse)
      (verifier : AuthVerifier) (now : Nat) (msg : String),
      (complete_authentication db username resp verifier now).1 = .err msg →
      (complete_webauthn_authentication db username resp verifier now).1
        = .httpError 401 msg := by
  intro db username resp verifier now msg h
  unfold complete_webauthn_authentication
  rcases hca : complete_authentication db username resp verifier now with
    ⟨out, db1⟩
  rw [hca] at h
  cases out with
  | ok res => exact absurd h (by simp)
  | err m =>
    injection h with hm
    subst hm
    rfl

/-- Witness for C5's amended statement: the user-not-found failure against db3
surfaces as HTTP 401 with the same detail string. -/
theorem auth_failures_present_as_401_witness :
    (complete_webauthn_authentication db3 "alice" respGood (Except.ok 1) 0).1
      = .httpError 401 "User not found or cannot authenticate" :=
  auth_failures_present_as_401 db3 "alice" respGood (Except.ok 1) 0
    "User not found or cannot authenticate" rfl

end BMAuth

